import Mathlib

/-!
Verification development for the allsorts font tools (shape and dump).

The Rust sources are shallowly embedded: pure functions become Lean
functions on Nat (machine integers carry an explicit `% 2 ^ 32` where the
source works in u32), fallible code returns Except, the one unbounded
while-loop is given explicit fuel (result none = the loop has not finished
within the given fuel), and calls into the external font codec library
(fontcode) are parameters of an environment structure, so every theorem
holds for every behaviour of the library.
-/

/-- Parse errors of the font codec library. The two tools themselves only
ever construct BadValue; other library-made errors are carried by the
second constructor. -/
inductive ParseError where
  | BadValue
  | other (code : Nat)
deriving DecidableEq, Repr

namespace Tag

/-- Tag constant cmap of the fontcode tag module: big-endian packing of
the four ASCII characters c, m, a, p. -/
def CMAP : Nat := 0x636d6170

/-- Tag constant GSUB. -/
def GSUB : Nat := 0x47535542

/-- Tag constant GDEF. -/
def GDEF : Nat := 0x47444546

/-- Tag constant head. -/
def HEAD : Nat := 0x68656164

/-- Tag constant maxp. -/
def MAXP : Nat := 0x6d617870

/-- Tag constant loca. -/
def LOCA : Nat := 0x6c6f6361

/-- Tag constant name. -/
def NAME : Nat := 0x6e616d65

end Tag

namespace Shape

/-- Shaping errors of the font codec library: a wrapped parse error (the
From conversion applied by the question-mark operator), or another
library-made shaping error. -/
inductive ShapingError where
  | parse (e : ParseError)
  | other (code : Nat)
deriving DecidableEq, Repr

/-- Number of bytes of the UTF-8 encoding of one char; str::len of the
source is the sum of these. -/
def utf8Len (c : Char) : Nat :=
  if c.toNat < 0x80 then 1
  else if c.toNat < 0x800 then 2
  else if c.toNat < 0x10000 then 3
  else 4

/-- Rust str::len: the UTF-8 byte length of the string. -/
def strByteLen (s : List Char) : Nat := (s.map utf8Len).sum

/-- Rust char::is_ascii. -/
def isAscii (c : Char) : Bool := c.toNat ≤ 0x7f

/-- Rust char::is_ascii_control: code points 0x00..=0x1f and 0x7f. -/
def isAsciiControl (c : Char) : Bool := c.toNat ≤ 0x1f || c.toNat == 0x7f

/-- The character loop of tag_from_string (shape.rs lines 171-178): checks
each char and folds it into the accumulator, counting accepted chars. -/
def tagChars : List Char → Nat → Nat → Except ParseError (Nat × Nat)
  | [], tag, count => .ok (tag, count)
  | c :: cs, tag, count =>
    if !(isAscii c) || isAsciiControl c then .error .BadValue
    else tagChars cs (((tag <<< 8) ||| c.toNat) % 2 ^ 32) (count + 1)

/-- The space-padding while-loop of tag_from_string (shape.rs lines
180-182), with explicit fuel. The source loop body updates tag but never
updates count, exactly as embedded here; none means the loop has not
exited within the given fuel. -/
def padLoop : Nat → Nat → Nat → Option Nat
  | fuel, tag, count =>
    if count < 4 then
      match fuel with
      | 0 => none
      | f + 1 => padLoop f (((tag <<< 8) ||| 0x20) % 2 ^ 32) count
    else some tag

/-- shape.rs tag_from_string: length guard, character loop, padding loop.
Result none means the padding loop has not finished within the fuel. -/
def tag_from_string (s : List Char) (fuel : Nat) : Option (Except ParseError Nat) :=
  if strByteLen s > 4 then some (.error .BadValue)
  else
    match tagChars s 0 0 with
    | .error e => some (.error e)
    | .ok (tag, count) =>
      match padLoop fuel tag count with
      | none => none
      | some t => some (.ok t)

/-- Big-endian bytes of a 32-bit tag, most significant first; re-rendering
a tag reads these four bytes as characters. -/
def tagBytes (t : Nat) : List Nat :=
  [t / 2 ^ 24 % 256, t / 2 ^ 16 % 256, t / 2 ^ 8 % 256, t % 256]

/-- Everything shape.rs main does after the two tags have parsed: reading
the font file, parsing it and dispatching to the shaping functions, all
abstracted as one function of the two tags. -/
structure ShapeRest where
  run : Nat → Nat → Except ShapingError (List String)

/-- Outcome of shape.rs main on a four-argument command line: whether
control reached read_file, and the final result. -/
structure ShapeMainResult where
  fileRead : Bool
  result : Except ShapingError (List String)

/-- shape.rs main, lines 21-34: parse the script tag, then the language
tag, and only then read the font file and run the rest. The question-mark
operator wraps a tag parse error into ShapingError.parse. -/
def shape_main (script lang : List Char) (fuel : Nat) (rest : ShapeRest) :
    Option ShapeMainResult :=
  match tag_from_string script fuel with
  | none => none
  | some (.error e) => some ⟨false, .error (.parse e)⟩
  | some (.ok scriptTag) =>
    match tag_from_string lang fuel with
    | none => none
    | some (.error e) => some ⟨false, .error (.parse e)⟩
    | some (.ok langTag) => some ⟨true, rest.run scriptTag langTag⟩

/-- A concrete ShapeRest used to instantiate theorems. -/
def restStub : ShapeRest := ⟨fun _ _ => .ok []⟩

/-- Glyph origin of the font codec library; the shape tool only ever
builds the per-character variant. -/
inductive GlyphOrigin where
  | Char (c : Char)
deriving DecidableEq, Repr

/-- RawGlyph of the font codec library, with the fields the shape tool
sets in make_glyph; extra_data is the unit type there. -/
structure RawGlyph where
  unicodes : List Char
  glyph_index : Option Nat
  liga_component_pos : Nat
  glyph_origin : GlyphOrigin
  small_caps : Bool
  multi_subst_dup : Bool
  is_vert_alt : Bool
  fake_bold : Bool
  fake_italic : Bool
  extra_data : Unit
deriving DecidableEq, Repr

/-- shape.rs make_glyph (lines 148-161). -/
def make_glyph (ch : Char) (glyph_index : Nat) : RawGlyph where
  unicodes := [ch]
  glyph_index := some glyph_index
  liga_component_pos := 0
  glyph_origin := GlyphOrigin.Char ch
  small_caps := false
  multi_subst_dup := false
  is_vert_alt := false
  fake_bold := false
  fake_italic := false
  extra_data := ()

/-- Model of a fontcode CmapSubtable: its map_glyph operation takes a
code point and yields an optional glyph index or a parse error. -/
structure CmapSubtable where
  map_glyph : Nat → Except ParseError (Option Nat)

/-- shape.rs map_glyph (lines 139-146): query the subtable and wrap a
found glyph index with make_glyph. -/
def map_glyph (cmap_subtable : CmapSubtable) (ch : Char) :
    Except ParseError (Option RawGlyph) :=
  match cmap_subtable.map_glyph ch.toNat with
  | .error e => .error e
  | .ok (some glyph_index) => .ok (some (make_glyph ch glyph_index))
  | .ok none => .ok none

/-- shape.rs make_dotted_circle (lines 132-137): a single glyph for
U+25CC when it maps, the empty sequence otherwise. -/
def make_dotted_circle (cmap_subtable : CmapSubtable) : List RawGlyph :=
  match map_glyph cmap_subtable '◌' with
  | .ok (some raw_glyph) => [raw_glyph]
  | _ => []

/-- Rust collect of an iterator of Results into Result of Vec: the first
error short-circuits, otherwise the list of payloads in order. -/
def collectExcept : List (Except ParseError (Option RawGlyph)) →
    Except ParseError (List (Option RawGlyph))
  | [] => .ok []
  | .error e :: _ => .error e
  | .ok a :: rest =>
    match collectExcept rest with
    | .error e => .error e
    | .ok xs => .ok (a :: xs)

/-- The per-character glyph of shape_ttf as one option: the glyph index
found by the subtable wrapped with make_glyph, none when the subtable has
no mapping or errors. Used to state what the flatten step keeps. -/
def mappedGlyph (cmap_subtable : CmapSubtable) (ch : Char) : Option RawGlyph :=
  match cmap_subtable.map_glyph ch.toNat with
  | .ok (some glyph_index) => some (make_glyph ch glyph_index)
  | _ => none

/-- Environment of shape_ttf: every call it makes into the font codec
library, as an arbitrary function. Scope and record handles are Nats;
table byte arrays are lists of Nats. -/
structure ShapeTtf where
  read_table : Nat → Except ParseError (Option Nat)
  parse_cmap : Nat → Except ParseError Nat
  read_cmap_subtable : Nat → Except ParseError (Option CmapSubtable)
  find_table_record : Nat → Option Nat
  read_record : Nat → Except ParseError (List Nat)
  parse_layout : List Nat → Except ParseError Nat
  parse_gdef : List Nat → Except ParseError Nat
  gsub_apply_default : (Unit → List RawGlyph) → Nat → Option Nat → Nat → Nat →
    Bool → List RawGlyph → Except ShapingError (Bool × List RawGlyph)
  fmt_glyphs : List RawGlyph → String

/-- Rendering of a Rust bool by println. -/
def fmtBool (b : Bool) : String := if b then "true" else "false"

/-- shape.rs with_tables (lines 117-130): parse the layout table, parse
the optional GDEF table, and run the continuation on them. -/
def with_tables (env : ShapeTtf) (layout_table_data : List Nat)
    (opt_gdef_table_data : Option (List Nat))
    (f : Nat → Option Nat → Except ShapingError (Bool × List RawGlyph)) :
    Except ShapingError (Bool × List RawGlyph) :=
  match env.parse_layout layout_table_data with
  | .error e => .error (.parse e)
  | .ok layout_table =>
    match opt_gdef_table_data with
    | some gdef_table_data =>
      match env.parse_gdef gdef_table_data with
      | .error e => .error (.parse e)
      | .ok gdef_table => f layout_table (some gdef_table)
    | none => f layout_table none

/-- shape.rs shape_ttf (lines 59-115), returning the println lines in
order on success. The glyph mutation of gsub_apply_default is modelled by
the library function returning the new glyph sequence. -/
def shape_ttf (env : ShapeTtf) (script lang : Nat) (text : List Char) :
    Except ShapingError (List String) :=
  match env.read_table Tag.CMAP with
  | .error e => .error (.parse e)
  | .ok none => .ok ["no cmap table"]
  | .ok (some cmap_scope) =>
  match env.parse_cmap cmap_scope with
  | .error e => .error (.parse e)
  | .ok cmap =>
  match env.read_cmap_subtable cmap with
  | .error e => .error (.parse e)
  | .ok none => .ok ["no suitable cmap subtable"]
  | .ok (some cmap_subtable) =>
  match collectExcept (text.map (map_glyph cmap_subtable)) with
  | .error e => .error (.parse e)
  | .ok opt_glyphs =>
  let glyphs := opt_glyphs.filterMap id
  let beforeLine := "glyphs before: " ++ env.fmt_glyphs glyphs
  match env.find_table_record Tag.GSUB with
  | none => .ok [beforeLine, "no GSUB table"]
  | some gsub_record =>
  match env.read_record gsub_record with
  | .error e => .error (.parse e)
  | .ok gsub_table_data =>
  match (match env.find_table_record Tag.GDEF with
         | some gdef_record =>
           match env.read_record gdef_record with
           | .error e => Except.error e
           | .ok d => Except.ok (some d)
         | none => Except.ok none) with
  | .error e => .error (.parse e)
  | .ok opt_gdef_table_data =>
  match with_tables env gsub_table_data opt_gdef_table_data
      (fun gsub_table opt_gdef_table =>
        env.gsub_apply_default (fun _ => make_dotted_circle cmap_subtable)
          gsub_table opt_gdef_table script lang false glyphs) with
  | .error e => .error e
  | .ok (res, glyphs2) =>
    if res then
      .ok [beforeLine, "res: " ++ fmtBool res, "glyphs after: " ++ env.fmt_glyphs glyphs2]
    else
      .ok [beforeLine, "res: " ++ fmtBool res]

end Shape

namespace Dump

/-- dump.rs Error (lines 23-28): io errors (carried abstractly), parse
errors, and static user-facing messages. -/
inductive Error where
  | Io (code : Nat)
  | Parse (e : ParseError)
  | Message (s : String)
deriving DecidableEq, Repr

/-- What one dump call emits: println lines, eprintln lines, and raw
bytes written to standard output by write_all. -/
structure Output where
  out : List String
  err : List String
  bytes : List Nat
deriving DecidableEq, Repr

/-- The empty output. -/
def Output.empty : Output := ⟨[], [], []⟩

/-- Concatenation of two outputs, stream by stream. -/
def Output.append (a b : Output) : Output :=
  ⟨a.out ++ b.out, a.err ++ b.err, a.bytes ++ b.bytes⟩

/-- One dump function run: what it emitted plus its Result value. Output
already emitted remains visible even when the result is an error, as on a
real terminal. -/
structure Run where
  output : Output
  result : Except Error Unit

/-- dump.rs dump_raw_table (lines 319-325): write the table bytes to
standard output when the scope is present, otherwise fail with the
Message error Table not found. -/
def dump_raw_table (scope : Option (List Nat)) : Run :=
  match scope with
  | some data => ⟨⟨[], [], data⟩, .ok ()⟩
  | none => ⟨Output.empty, .error (.Message ("Table not found"))⟩

/-- Model of a parsed OffsetTable: read_table is the library lookup of a
tag in the table directory (ok none = tag absent), and summary abstracts
the whole no-tag listing branch of dump_ttf (lines 123-142), which no
claim exercises. -/
structure OffsetTableModel where
  read_table : Nat → Except ParseError (Option (List Nat))
  summary : Run

/-- dump.rs dump_ttf (lines 118-143): with a requested tag, resolve it
and hand the optional scope to dump_raw_table; otherwise print the
summary listing. -/
def dump_ttf (ttf : OffsetTableModel) (tag : Option Nat) : Run :=
  match tag with
  | some t =>
    match ttf.read_table t with
    | .error e => ⟨Output.empty, .error (.Parse e)⟩
    | .ok scope => dump_raw_table scope
  | none => ttf.summary

/-- Model of a TTCHeader: the version fields and, per offset-table
offset, the result of reading the OffsetTable there. -/
structure TTCModel where
  major_version : Nat
  minor_version : Nat
  fonts : List (Except ParseError OffsetTableModel)

/-- The header lines dump_ttc prints before iterating the fonts. -/
def ttcHeader (ttc : TTCModel) : List String :=
  ["TTC",
   " - version: " ++ toString ttc.major_version ++ "." ++ toString ttc.minor_version,
   " - num_fonts: " ++ toString ttc.fonts.length,
   ""]

/-- The font loop of dump_ttc (lines 109-113) plus the trailing blank
println: each offset table is read (a parse error aborts via the
question-mark operator) and dumped; the first error stops the loop,
keeping the output already emitted. -/
def dump_ttc_fonts (tag : Option Nat) : List (Except ParseError OffsetTableModel) → Run
  | [] => ⟨⟨[""], [], []⟩, .ok ()⟩
  | .error e :: _ => ⟨Output.empty, .error (.Parse e)⟩
  | .ok ttf :: rest =>
    let r := dump_ttf ttf tag
    match r.result with
    | .error e => ⟨r.output, .error e⟩
    | .ok _ =>
      let r2 := dump_ttc_fonts tag rest
      ⟨r.output.append r2.output, r2.result⟩

/-- dump.rs dump_ttc (lines 104-116): header lines, then the font loop. -/
def dump_ttc (ttc : TTCModel) (tag : Option Nat) : Run :=
  let r := dump_ttc_fonts tag ttc.fonts
  ⟨Output.append ⟨ttcHeader ttc, [], []⟩ r.output, r.result⟩

/-- Modelled from the spec: the fontcode DisplayTag wrapper renders a
32-bit tag as its four big-endian bytes read as characters (spec: a tag
is a 4-byte ASCII identifier). Only used inside the stderr not-found
message of dump_woff. -/
def displayTag (t : Nat) : String :=
  String.mk [Char.ofNat (t / 2 ^ 24 % 256), Char.ofNat (t / 2 ^ 16 % 256),
    Char.ofNat (t / 2 ^ 8 % 256), Char.ofNat (t % 256)]

/-- One WOFF table directory entry: its tag plus an identity so distinct
entries with equal tags stay distinct. -/
structure WoffTableEntry where
  tag : Nat
  id : Nat
deriving DecidableEq, Repr

/-- Model of a WoffFile: its table directory, the library read of one
entry yielding the table bytes, and summary abstracting the no-tag
listing branch (lines 158-188), which no claim exercises. -/
structure WoffModel where
  table_directory : List WoffTableEntry
  read_entry : WoffTableEntry → Except ParseError (List Nat)
  summary : Run

/-- dump.rs dump_woff (lines 145-189): with a requested tag, find the
directory entry with that tag; when present, read it and dump the bytes;
when absent, print the not-found line to stderr and return Ok. -/
def dump_woff (woff : WoffModel) (tag : Option Nat) : Run :=
  match tag with
  | some t =>
    match woff.table_directory.find? (fun entry => entry.tag == t) with
    | some entry =>
      match woff.read_entry entry with
      | .error e => ⟨Output.empty, .error (.Parse e)⟩
      | .ok data => dump_raw_table (some data)
    | none => ⟨⟨[], ["Table " ++ displayTag t ++ " not found"], []⟩, .ok ()⟩
  | none => woff.summary

/-- Model of a Woff2File: read_table is the library lookup of a tag for a
font index (ok none = tag absent), and summary abstracts the no-tag
listing branch (lines 202-258), which no claim exercises. -/
structure Woff2Model where
  read_table : Nat → Nat → Except ParseError (Option (List Nat))
  summary : Run

/-- dump.rs dump_woff2 (lines 191-259): with a requested tag, resolve it
for the font index and hand the optional scope to dump_raw_table;
otherwise print the summary listing. -/
def dump_woff2 (woff : Woff2Model) (tag : Option Nat) (index : Nat) : Run :=
  match tag with
  | some t =>
    match woff.read_table t index with
    | .error e => ⟨Output.empty, .error (.Parse e)⟩
    | .ok table => dump_raw_table table
  | none => woff.summary

/-- HeadTable with the one field dump.rs reads. -/
structure HeadTable where
  index_to_loc_format : Nat
deriving DecidableEq, Repr

/-- MaxpTable with the one field dump.rs reads. -/
structure MaxpTable where
  num_glyphs : Nat
deriving DecidableEq, Repr

/-- Environment of dump_loca_table: the container construction of
font_tables FontImpl new (unwrapped at the call site), the optional table
fetch of the provider, and the typed library reads. -/
structure FontTablesModel where
  new_font : Except ParseError Unit
  get_table : Nat → Option (List Nat)
  read_head : List Nat → Except ParseError HeadTable
  read_maxp : List Nat → Except ParseError MaxpTable
  read_loca : List Nat → Nat → Nat → Except ParseError (List Nat)

/-- Outcome of dump_loca_table: a panicked process (unwrap or expect on a
missing value), a ParseError returned to main, or the printed lines. -/
inductive LocaOutcome where
  | panicked (msg : String)
  | failed (e : ParseError)
  | printed (lines : List String)

/-- dump.rs dump_loca_table (lines 294-317): unwrap the container
construction, fetch head, maxp and loca with expect (a missing table
panics with the expect message), read them via the library, then print
one line per loca offset. -/
def dump_loca_table (env : FontTablesModel) : LocaOutcome :=
  match env.new_font with
  | .error _ => .panicked "FontImpl new unwrap"
  | .ok _ =>
  match env.get_table Tag.HEAD with
  | none => .panicked "no head table"
  | some head_data =>
  match env.read_head head_data with
  | .error e => .failed e
  | .ok head =>
  match env.get_table Tag.MAXP with
  | none => .panicked "no maxp table"
  | some maxp_data =>
  match env.read_maxp maxp_data with
  | .error e => .failed e
  | .ok maxp =>
  match env.get_table Tag.LOCA with
  | none => .panicked "no loca table"
  | some loca_data =>
  match env.read_loca loca_data maxp.num_glyphs head.index_to_loc_format with
  | .error e => .failed e
  | .ok offsets =>
    .printed ("loca:" :: offsets.enum.map (fun p => toString p.1 ++ ": " ++ toString p.2))

/-- FontFile dispatch result of the library (dump.rs lines 77-86). -/
inductive FontFileModel where
  | OpenTypeSingle (ttf : OffsetTableModel)
  | OpenTypeCollection (ttc : TTCModel)
  | Woff (w : WoffModel)
  | Woff2 (w : Woff2Model)

/-- Environment of dump.rs main: the terminal check, the file read, the
library tag parse (fontcode tag from_string, distinct from the shape tool
one), the index parse, the container dispatch parse, and the
dump_loca_table environment derived from buffer and index. -/
structure MainEnv where
  is_tty : Bool
  read_file : Except Error (List Nat)
  tag_from_str : List Char → Except ParseError Nat
  parse_index : List Char → Option Nat
  parse_font_file : List Nat → Except ParseError FontFileModel
  loca_env : List Nat → Nat → FontTablesModel

/-- Outcome of dump.rs main: a panic (only reachable through the loca
path) or a normal run. -/
inductive MainOutcome where
  | panicked (msg : String)
  | run (r : Run)

/-- Abstraction of print_usage (dump.rs lines 92-95): the getopts usage
text on stderr; its exact text is owned by the getopts library and no
claim exercises it. -/
def usage : Run := ⟨⟨[], ["Usage"], []⟩, .ok ()⟩

/-- dump.rs main (lines 30-90) after option matching: help, table-tag
parse, the tty guard, index parse, positional file argument, file read,
then the loca branch or the container dispatch, in source order. -/
def dump_main (help : Bool) (tableArg : Option (List Char)) (locaFlag : Bool)
    (indexArg : Option (List Char)) (haveFile : Bool) (env : MainEnv) : MainOutcome :=
  if help then .run usage
  else
  match (match tableArg with
         | some s => (env.tag_from_str s).map some
         | none => Except.ok none) with
  | .error e => .run ⟨Output.empty, .error (.Parse e)⟩
  | .ok table =>
  if table.isSome && env.is_tty then
    .run ⟨Output.empty, .error (.Message ("Not printing binary data to tty."))⟩
  else
  match (match indexArg with
         | some s =>
           match env.parse_index s with
           | some n => Except.ok (some n)
           | none => Except.error ParseError.BadValue
         | none => Except.ok none) with
  | .error e => .run ⟨Output.empty, .error (.Parse e)⟩
  | .ok optIndex =>
  let index := optIndex.getD 0
  if !haveFile then .run usage
  else
  match env.read_file with
  | .error e => .run ⟨Output.empty, .error e⟩
  | .ok buffer =>
  if locaFlag then
    match dump_loca_table (env.loca_env buffer index) with
    | .panicked msg => .panicked msg
    | .failed e => .run ⟨Output.empty, .error (.Parse e)⟩
    | .printed lines => .run ⟨⟨lines, [], []⟩, .ok ()⟩
  else
    match env.parse_font_file buffer with
    | .error e => .run ⟨Output.empty, .error (.Parse e)⟩
    | .ok (.OpenTypeSingle ttf) => .run (dump_ttf ttf table)
    | .ok (.OpenTypeCollection ttc) => .run (dump_ttc ttc table)
    | .ok (.Woff w) => .run (dump_woff w table)
    | .ok (.Woff2 w) => .run (dump_woff2 w table index)

/-- Text codecs the name-table decoder selects between. -/
inductive Codec where
  | UTF_16BE
  | MACINTOSH
deriving DecidableEq, Repr

/-- The literal placeholder text of dump_name_table for an unrecognized
platform and encoding pair (dump.rs lines 278-281). -/
def unknown_platform (platform encoding language : Nat) : String :=
  "(unknown platform=" ++ toString platform ++ " encoding=" ++ toString encoding
    ++ " language=" ++ toString language ++ ")"

/-- The per-record text of dump_name_table (dump.rs lines 272-282): the
match selecting a codec from platform, encoding and language, with decode
abstracted (encoding_rs decoding is total: it replaces malformed input
and always yields a string). -/
def record_name (decode : Codec → List Nat → String)
    (platform encoding language : Nat) (name_data : List Nat) : String :=
  match platform, encoding, language with
  | 0, _, _ => decode Codec.UTF_16BE name_data
  | 1, 0, _ => decode Codec.MACINTOSH name_data
  | 3, 0, _ => decode Codec.UTF_16BE name_data
  | 3, 1, _ => decode Codec.UTF_16BE name_data
  | 3, 10, _ => decode Codec.UTF_16BE name_data
  | _, _, _ => unknown_platform platform encoding language

/-- The codec table of the specification, written from its words: row
(0, any), row (1, 0), rows (3, 0 or 1 or 10), everything else the
placeholder. Compared with record_name, which is the code. -/
def specCodec (platform encoding : Nat) : Option Codec :=
  if platform = 0 then some Codec.UTF_16BE
  else if platform = 1 then
    (if encoding = 0 then some Codec.MACINTOSH else none)
  else if platform = 3 then
    (if encoding = 0 ∨ encoding = 1 ∨ encoding = 10 then some Codec.UTF_16BE else none)
  else none

end Dump

namespace Shape

/-- A concrete subtable mapping code point 65 to glyph 3 and nothing
else, used to instantiate theorems. -/
def subW : CmapSubtable := ⟨fun code => if code = 65 then .ok (some 3) else .ok none⟩

/-- A concrete subtable with no mappings, used to instantiate theorems. -/
def subNone : CmapSubtable := ⟨fun _ => .ok none⟩

/-- A concrete subtable mapping U+25CC to glyph 7 and nothing else, used
to instantiate theorems. -/
def subDC : CmapSubtable :=
  ⟨fun code => if code = 0x25cc then .ok (some 7) else .ok none⟩

/-- A concrete shaping environment whose font has no tables at all, used
to instantiate theorems. -/
def envBase : ShapeTtf where
  read_table := fun _ => .ok none
  parse_cmap := fun _ => .ok 0
  read_cmap_subtable := fun _ => .ok none
  find_table_record := fun _ => none
  read_record := fun _ => .ok []
  parse_layout := fun _ => .ok 0
  parse_gdef := fun _ => .ok 0
  gsub_apply_default := fun _ _ _ _ _ _ glyphs => .ok (false, glyphs)
  fmt_glyphs := fun _ => "[]"

/-- envBase with a cmap table whose subtable read yields nothing. -/
def envNoSubtable : ShapeTtf := { envBase with read_table := fun _ => .ok (some 0) }

/-- envBase with a cmap table and an empty subtable, and no GSUB. -/
def envNoGsub : ShapeTtf :=
  { envBase with
    read_table := fun _ => .ok (some 0)
    read_cmap_subtable := fun _ => .ok (some subNone) }

/-- envBase with a cmap table, the dotted-circle subtable, and a GSUB
record whose substitution reports that nothing fired. -/
def envGsub : ShapeTtf :=
  { envBase with
    read_table := fun _ => .ok (some 0)
    read_cmap_subtable := fun _ => .ok (some subDC)
    find_table_record := fun t => if t = Tag.GSUB then some 0 else none }

end Shape

namespace Dump

/-- A concrete single-font model with an empty directory, used to
instantiate theorems. -/
def ttfAbsent : OffsetTableModel := ⟨fun _ => .ok none, ⟨Output.empty, .ok ()⟩⟩

/-- A concrete collection holding one copy of ttfAbsent. -/
def ttcAbsent : TTCModel := ⟨1, 0, [.ok ttfAbsent]⟩

/-- A concrete WOFF model with an empty directory. -/
def woffAbsent : WoffModel := ⟨[], fun _ => .ok [], ⟨Output.empty, .ok ()⟩⟩

/-- A concrete WOFF2 model with an empty directory. -/
def woff2Absent : Woff2Model := ⟨fun _ _ => .ok none, ⟨Output.empty, .ok ()⟩⟩

/-- A concrete single-font model holding bytes 1, 2, 3 for every tag. -/
def ttfData : OffsetTableModel :=
  ⟨fun _ => .ok (some [1, 2, 3]), ⟨Output.empty, .ok ()⟩⟩

/-- A concrete loca environment whose provider holds no tables. -/
def locaEnvMissingHead : FontTablesModel :=
  ⟨.ok (), fun _ => none, fun _ => .ok ⟨0⟩, fun _ => .ok ⟨0⟩, fun _ _ _ => .ok []⟩

/-- A concrete main environment attached to a terminal. -/
def envTty : MainEnv where
  is_tty := true
  read_file := .ok []
  tag_from_str := fun _ => .ok Tag.HEAD
  parse_index := fun _ => some 0
  parse_font_file := fun _ => .ok (.OpenTypeSingle ttfData)
  loca_env := fun _ _ => locaEnvMissingHead

/-- envTty with output redirected away from the terminal. -/
def envPipe : MainEnv := { envTty with is_tty := false }

end Dump

namespace Shape

theorem pad_loop_stuck (fuel tag count : Nat) (h : count < 4) :
    padLoop fuel tag count = none := by
  induction fuel generalizing tag with
  | zero => simp [padLoop, h]
  | succ n ih => rw [padLoop]; simp only [if_pos h]; exact ih _

theorem pad_loop_done (fuel tag count : Nat) (h : ¬ count < 4) :
    padLoop fuel tag count = some tag := by
  cases fuel <;> simp [padLoop, h]

theorem tag_chars_ok (s : List Char) (t n : Nat)
    (hok : ∀ c ∈ s, isAscii c = true ∧ isAsciiControl c = false) :
    ∃ v, tagChars s t n = .ok (v, n + s.length) := by
  induction s generalizing t n with
  | nil => exact ⟨t, by simp [tagChars]⟩
  | cons c cs ih =>
    have hc := hok c (by simp)
    have hcond : (!(isAscii c) || isAsciiControl c) = false := by
      simp [hc.1, hc.2]
    obtain ⟨v, hv⟩ :=
      ih (((t <<< 8) ||| c.toNat) % 2 ^ 32) (n + 1) (fun d hd => hok d (by simp [hd]))
    refine ⟨v, ?_⟩
    simp only [tagChars, hcond, Bool.false_eq_true, if_false, hv, List.length_cons]
    congr 2
    omega

theorem tag_chars_bad (s : List Char)
    (hbad : ∃ c ∈ s, (!(isAscii c) || isAsciiControl c) = true) :
    ∀ t n, tagChars s t n = .error .BadValue := by
  induction s with
  | nil => simp at hbad
  | cons c cs ih =>
    intro t n
    by_cases hc : (!(isAscii c) || isAsciiControl c) = true
    · simp [tagChars, hc]
    · have hbad2 : ∃ d ∈ cs, (!(isAscii d) || isAsciiControl d) = true := by
        rcases hbad with ⟨d, hd, hdbad⟩
        rcases List.mem_cons.mp hd with h | h
        · subst h; exact absurd hdbad hc
        · exact ⟨d, h, hdbad⟩
      simp only [tagChars, hc, Bool.false_eq_true, if_false]
      exact ih hbad2 _ _

theorem byte_len_ascii (s : List Char) (hok : ∀ c ∈ s, isAscii c = true) :
    strByteLen s = s.length := by
  induction s with
  | nil => rfl
  | cons c cs ih =>
    have h1 : utf8Len c = 1 := by
      have := hok c (by simp)
      simp only [isAscii, decide_eq_true_eq] at this
      simp [utf8Len]
      omega
    have ih2 := ih (fun d hd => hok d (by simp [hd]))
    simp only [strByteLen, List.map_cons, List.sum_cons, h1, List.length_cons] at ih2 ⊢
    omega

theorem tag_short_aux (s : List Char) (fuel : Nat)
    (hok : ∀ c ∈ s, isAscii c = true ∧ isAsciiControl c = false)
    (hshort : s.length < 4) :
    tag_from_string s fuel = none := by
  have hlen : strByteLen s = s.length := byte_len_ascii s (fun c hc => (hok c hc).1)
  have hguard : ¬ strByteLen s > 4 := by omega
  obtain ⟨v, hv⟩ := tag_chars_ok s 0 0 hok
  have hpad : padLoop fuel v s.length = none :=
    pad_loop_stuck fuel v s.length (by omega)
  rw [tag_from_string, if_neg hguard, hv]
  simp [hpad]

/-- C1: the tag round-trip of the spec fails on the code. For the 4-char
example, tag_from_string does yield the big-endian packing 0x636d6170,
whose bytes re-render as c, m, a, p; but for any accepted string shorter
than 4 characters the padding loop never increments its counter, so
tag_from_string never returns a value: no amount of fuel finishes the
3-char input. -/
theorem tag_from_string_roundtrip_bug :
    tag_from_string ['c', 'm', 'a', 'p'] 0 = some (.ok 0x636d6170) ∧
    tagBytes 0x636d6170 = [0x63, 0x6d, 0x61, 0x70] ∧
    ∀ fuel, tag_from_string ['c', 'm', 'a'] fuel = none := by
  refine ⟨rfl, by decide, fun fuel => ?_⟩
  exact tag_short_aux ['c', 'm', 'a'] fuel (by decide) (by decide)

/-- C2: refuted termination. For every accepted input with fewer than 4
characters the space-padding loop of tag_from_string runs forever: its
body never changes count, so the loop guard count lt 4 stays true, and
the fuelled embedding returns none for every fuel. -/
theorem tag_from_string_short_input_diverges (s : List Char) (fuel : Nat)
    (hok : ∀ c ∈ s, isAscii c = true ∧ isAsciiControl c = false)
    (hshort : s.length < 4) :
    tag_from_string s fuel = none :=
  tag_short_aux s fuel hok hshort

/-- Witness for C2 at the concrete 2-char input ab with fuel 5. -/
theorem tag_from_string_short_input_diverges_witness :
    tag_from_string ['a', 'b'] 5 = none :=
  tag_from_string_short_input_diverges ['a', 'b'] 5 (by decide) (by decide)

/-- C3: every string of byte length over 4, or containing a non-ASCII or
control character, makes tag_from_string fail with BadValue at every
fuel; and in shape main that failure surfaces before read_file runs
(fileRead is false and the outcome does not depend on the rest of the
program), whether the bad string is the script or the language tag. -/
theorem tag_from_string_rejection (s : List Char)
    (h : 4 < strByteLen s ∨ ∃ c ∈ s, (!(isAscii c) || isAsciiControl c) = true) :
    (∀ fuel, tag_from_string s fuel = some (.error .BadValue)) ∧
    (∀ fuel lang rest, shape_main s lang fuel rest =
      some ⟨false, .error (.parse .BadValue)⟩) ∧
    (∀ fuel script rest t, tag_from_string script fuel = some (.ok t) →
      shape_main script s fuel rest = some ⟨false, .error (.parse .BadValue)⟩) := by
  have h1 : ∀ fuel, tag_from_string s fuel = some (.error .BadValue) := by
    intro fuel
    by_cases hl : strByteLen s > 4
    · simp [tag_from_string, hl]
    · have hbad : ∃ c ∈ s, (!(isAscii c) || isAsciiControl c) = true := by
        rcases h with h | h
        · omega
        · exact h
      rw [tag_from_string, if_neg hl, tag_chars_bad s hbad 0 0]
  refine ⟨h1, fun fuel lang rest => ?_, fun fuel script rest t hscript => ?_⟩
  · rw [shape_main, h1 fuel]
  · rw [shape_main, hscript, h1 fuel]

/-- Witness for C3: a 5-byte tag string is rejected, as the script and as
the language argument, before the rest of the program runs. -/
theorem tag_from_string_rejection_witness :
    tag_from_string ['a', 'b', 'c', 'd', 'e'] 3 = some (.error .BadValue) ∧
    shape_main ['a', 'b', 'c', 'd', 'e'] ['l', 'a', 't', 'n'] 3 restStub =
      some ⟨false, .error (.parse .BadValue)⟩ ∧
    shape_main ['l', 'a', 't', 'n'] ['a', 'b', 'c', 'd', 'e'] 3 restStub =
      some ⟨false, .error (.parse .BadValue)⟩ := by
  have h := tag_from_string_rejection ['a', 'b', 'c', 'd', 'e'] (by left; decide)
  exact ⟨h.1 3, h.2.1 3 ['l', 'a', 't', 'n'] restStub,
    h.2.2 3 ['l', 'a', 't', 'n'] restStub 0x6c61746e rfl⟩

/-- C4: in shape_ttf, an absent cmap table, an absent acceptable cmap
subtable, and an absent GSUB table each end the pipeline early with an Ok
result carrying the informational line (no cmap table, no suitable cmap
subtable, no GSUB table), never an error result. -/
theorem shape_ttf_missing_tables (env : ShapeTtf) (script lang : Nat) (text : List Char) :
    (env.read_table Tag.CMAP = .ok none →
      shape_ttf env script lang text = .ok ["no cmap table"]) ∧
    (∀ sc c, env.read_table Tag.CMAP = .ok (some sc) →
      env.parse_cmap sc = .ok c →
      env.read_cmap_subtable c = .ok none →
      shape_ttf env script lang text = .ok ["no suitable cmap subtable"]) ∧
    (∀ sc c sub og, env.read_table Tag.CMAP = .ok (some sc) →
      env.parse_cmap sc = .ok c →
      env.read_cmap_subtable c = .ok (some sub) →
      collectExcept (text.map (map_glyph sub)) = .ok og →
      env.find_table_record Tag.GSUB = none →
      shape_ttf env script lang text =
        .ok ["glyphs before: " ++ env.fmt_glyphs (og.filterMap id), "no GSUB table"]) := by
  refine ⟨fun h1 => ?_, fun sc c h1 h2 h3 => ?_, fun sc c sub og h1 h2 h3 h4 h5 => ?_⟩
  · rw [shape_ttf, h1]
  · rw [shape_ttf, h1]; simp only []; rw [h2]; simp only []; rw [h3]
  · rw [shape_ttf, h1]; simp only []; rw [h2]; simp only []; rw [h3]
    simp only []; rw [h4]; simp only []; rw [h5]

/-- Witness for C4 at three concrete environments, one per missing
table. -/
theorem shape_ttf_missing_tables_witness :
    shape_ttf envBase 0 0 [] = .ok ["no cmap table"] ∧
    shape_ttf envNoSubtable 0 0 [] = .ok ["no suitable cmap subtable"] ∧
    shape_ttf envNoGsub 0 0 [] = .ok ["glyphs before: []", "no GSUB table"] := by
  refine ⟨(shape_ttf_missing_tables envBase 0 0 []).1 rfl,
    (shape_ttf_missing_tables envNoSubtable 0 0 []).2.1 0 0 rfl rfl rfl, ?_⟩
  exact (shape_ttf_missing_tables envNoGsub 0 0 []).2.2 0 0 subNone [] rfl rfl rfl rfl rfl

/-- C5: when no per-character query errors, the character-to-glyph stage
of shape_ttf succeeds and its flattened output is exactly the filterMap
of the input characters: each mapped character contributes exactly one
glyph, built by make_glyph, in input order, and each unmapped character
is dropped with no error and no placeholder. -/
theorem shape_mapped_chars_in_order (cmap_subtable : CmapSubtable) (text : List Char)
    (h : ∀ ch ∈ text, ∃ r, cmap_subtable.map_glyph ch.toNat = .ok r) :
    collectExcept (text.map (map_glyph cmap_subtable)) =
      .ok (text.map (mappedGlyph cmap_subtable)) ∧
    (text.map (mappedGlyph cmap_subtable)).filterMap id =
      text.filterMap (mappedGlyph cmap_subtable) := by
  constructor
  · induction text with
    | nil => rfl
    | cons ch rest ih =>
      obtain ⟨r, hr⟩ := h ch (by simp)
      have ih2 := ih (fun d hd => h d (by simp [hd]))
      cases r with
      | none => simp [collectExcept, map_glyph, mappedGlyph, hr, ih2]
      | some gi => simp [collectExcept, map_glyph, mappedGlyph, hr, ih2]
  · simp [List.filterMap_map]

/-- Witness for C5 at the concrete subtable mapping only code point 65,
on the two-character text A B. -/
theorem shape_mapped_chars_in_order_witness :
    collectExcept (['A', 'B'].map (map_glyph subW)) =
      .ok (['A', 'B'].map (mappedGlyph subW)) ∧
    (['A', 'B'].map (mappedGlyph subW)).filterMap id =
      ['A', 'B'].filterMap (mappedGlyph subW) :=
  shape_mapped_chars_in_order subW ['A', 'B'] (by
    intro ch hch
    fin_cases hch
    · exact ⟨some 3, rfl⟩
    · exact ⟨none, rfl⟩)

/-- C6: the dotted-circle supplier re-runs the character mapping for
U+25CC alone, yielding the one-glyph sequence when the subtable maps it
and the empty sequence when it does not (or when the query errors); and
shape_ttf hands it to gsub_apply_default as the zero-argument closure
fun u maps-to make_dotted_circle, evaluated only by the library. -/
theorem shape_dotted_circle_supplier (cmap_subtable : CmapSubtable) :
    (∀ gi, cmap_subtable.map_glyph 0x25cc = .ok (some gi) →
      make_dotted_circle cmap_subtable = [make_glyph '◌' gi]) ∧
    (cmap_subtable.map_glyph 0x25cc = .ok none →
      make_dotted_circle cmap_subtable = []) ∧
    (∀ e, cmap_subtable.map_glyph 0x25cc = .error e →
      make_dotted_circle cmap_subtable = []) ∧
    (∀ env script lang text sc c og r d lt g2,
      env.read_table Tag.CMAP = .ok (some sc) →
      env.parse_cmap sc = .ok c →
      env.read_cmap_subtable c = .ok (some cmap_subtable) →
      collectExcept (text.map (map_glyph cmap_subtable)) = .ok og →
      env.find_table_record Tag.GSUB = some r →
      env.read_record r = .ok d →
      env.find_table_record Tag.GDEF = none →
      env.parse_layout d = .ok lt →
      env.gsub_apply_default (fun _ => make_dotted_circle cmap_subtable) lt none
        script lang false (og.filterMap id) = .ok (false, g2) →
      shape_ttf env script lang text =
        .ok ["glyphs before: " ++ env.fmt_glyphs (og.filterMap id), "res: false"]) := by
  refine ⟨fun gi hgi => ?_, fun hn => ?_, fun e he => ?_,
    fun env script lang text sc c og r d lt g2 h1 h2 h3 h4 h5 h6 h7 h8 h9 => ?_⟩
  · rw [make_dotted_circle, map_glyph, show ('◌'.toNat) = 9676 from rfl, hgi]
  · rw [make_dotted_circle, map_glyph, show ('◌'.toNat) = 9676 from rfl, hn]
  · rw [make_dotted_circle, map_glyph, show ('◌'.toNat) = 9676 from rfl, he]
  · rw [shape_ttf, h1]; simp only []; rw [h2]; simp only []; rw [h3]
    simp only []; rw [h4]; simp only []; rw [h5]; simp only []; rw [h6]
    simp only []; rw [h7]; simp only []
    rw [with_tables, h8]; simp only []; rw [h9]
    simp [fmtBool]

/-- Witness for C6: the supplier at the subtable mapping U+25CC to glyph
7, at the empty subtable, and inside a full shaping run. -/
theorem shape_dotted_circle_supplier_witness :
    make_dotted_circle subDC = [make_glyph '◌' 7] ∧
    make_dotted_circle subNone = [] ∧
    shape_ttf envGsub 0 0 [] = .ok ["glyphs before: []", "res: false"] := by
  refine ⟨(shape_dotted_circle_supplier subDC).1 7 rfl,
    (shape_dotted_circle_supplier subNone).2.1 rfl, ?_⟩
  exact (shape_dotted_circle_supplier subDC).2.2.2 envGsub 0 0 [] 0 0 [] 0 [] 0 []
    rfl rfl rfl rfl rfl rfl rfl rfl rfl

end Shape

namespace Dump

/-- C7: the name-record text of dump_name_table follows the codec table
of the specification exactly: platform 0 decodes UTF-16 big-endian for
every encoding, platform 1 encoding 0 decodes Macintosh Roman, platform 3
encodings 0, 1 and 10 decode UTF-16 big-endian, and every other pair
yields the literal placeholder naming the platform, encoding and language
triple; the result is a total String, so decoding never fails. -/
theorem record_name_codec (decode : Codec → List Nat → String)
    (platform encoding language : Nat) (name_data : List Nat) :
    record_name decode platform encoding language name_data =
      (match specCodec platform encoding with
       | some codec => decode codec name_data
       | none => unknown_platform platform encoding language) := by
  rcases platform with _ | _ | _ | _ | p
  · rfl
  · rcases encoding with _ | e <;> rfl
  · rfl
  · rcases encoding with _ | _ | _ | _ | _ | _ | _ | _ | _ | _ | _ | e <;> rfl
  · rfl

/-- C8: for each container variant, a user-requested tag absent from the
directory is turned into a user-facing report, never a library parse
error: the single-font and WOFF2 paths (and the collection path, which
reuses the single-font path per font) return the Message error Table not
found, and the WOFF path prints the not-found line to stderr and returns
Ok. -/
theorem absent_tag_reported (t : Nat) :
    (∀ ttf : OffsetTableModel, ttf.read_table t = .ok none →
      dump_ttf ttf (some t) = ⟨Output.empty, .error (.Message ("Table not found"))⟩) ∧
    (∀ ttc : TTCModel, ∀ f rest, ttc.fonts = .ok f :: rest →
      f.read_table t = .ok none →
      dump_ttc ttc (some t) =
        ⟨⟨ttcHeader ttc, [], []⟩, .error (.Message ("Table not found"))⟩) ∧
    (∀ woff : WoffModel,
      woff.table_directory.find? (fun entry => entry.tag == t) = none →
      dump_woff woff (some t) =
        ⟨⟨[], ["Table " ++ displayTag t ++ " not found"], []⟩, .ok ()⟩) ∧
    (∀ woff : Woff2Model, ∀ index, woff.read_table t index = .ok none →
      dump_woff2 woff (some t) index =
        ⟨Output.empty, .error (.Message ("Table not found"))⟩) := by
  have httf : ∀ ttf : OffsetTableModel, ttf.read_table t = .ok none →
      dump_ttf ttf (some t) = ⟨Output.empty, .error (.Message ("Table not found"))⟩ := by
    intro ttf h
    simp [dump_ttf, h, dump_raw_table]
  refine ⟨httf, fun ttc f rest hfonts hf => ?_, fun woff hfind => ?_,
    fun woff index h => ?_⟩
  · rw [dump_ttc, dump_ttc_fonts.eq_def, hfonts]
    simp [httf f hf, Output.append, Output.empty]
  · rw [dump_woff]
    rw [hfind]
  · simp [dump_woff2, h, dump_raw_table]

/-- Witness for C8 at concrete empty-directory models of all four
container variants, requesting the head tag. -/
theorem absent_tag_reported_witness :
    dump_ttf ttfAbsent (some Tag.HEAD) =
      ⟨Output.empty, .error (.Message ("Table not found"))⟩ ∧
    dump_ttc ttcAbsent (some Tag.HEAD) =
      ⟨⟨ttcHeader ttcAbsent, [], []⟩, .error (.Message ("Table not found"))⟩ ∧
    dump_woff woffAbsent (some Tag.HEAD) =
      ⟨⟨[], ["Table " ++ displayTag Tag.HEAD ++ " not found"], []⟩, .ok ()⟩ ∧
    dump_woff2 woff2Absent (some Tag.HEAD) 0 =
      ⟨Output.empty, .error (.Message ("Table not found"))⟩ :=
  ⟨(absent_tag_reported Tag.HEAD).1 ttfAbsent rfl,
   (absent_tag_reported Tag.HEAD).2.1 ttcAbsent ttfAbsent [] rfl rfl,
   (absent_tag_reported Tag.HEAD).2.2.1 woffAbsent rfl,
   (absent_tag_reported Tag.HEAD).2.2.2 woff2Absent 0 rfl⟩

/-- C9: when the table option is given and standard output is a
terminal, dump main stops with the guard Message before read_file runs
(the outcome is fixed whatever the environment holds for the file) and
writes no bytes; when output is not a terminal, a present table is
written to standard output byte for byte. -/
theorem tty_guard_and_raw_bytes (env : MainEnv) (s : List Char) (t : Nat) :
    (env.tag_from_str s = .ok t → env.is_tty = true →
      ∀ locaFlag indexArg haveFile,
        dump_main false (some s) locaFlag indexArg haveFile env =
          .run ⟨Output.empty, .error (.Message ("Not printing binary data to tty."))⟩) ∧
    (∀ buffer ttf data,
      env.tag_from_str s = .ok t → env.is_tty = false →
      env.read_file = .ok buffer →
      env.parse_font_file buffer = .ok (.OpenTypeSingle ttf) →
      ttf.read_table t = .ok (some data) →
      dump_main false (some s) false none true env =
        .run ⟨⟨[], [], data⟩, .ok ()⟩) := by
  constructor
  · intro htag htty locaFlag indexArg haveFile
    simp [dump_main, htag, htty, Except.map]
  · intro buffer ttf data htag htty hfile hparse hread
    simp [dump_main, htag, htty, hfile, hparse, dump_ttf, hread, dump_raw_table,
      Except.map]

/-- Witness for C9: the same request against a terminal environment and
against a piped environment holding table bytes 1, 2, 3. -/
theorem tty_guard_and_raw_bytes_witness :
    dump_main false (some ['h', 'e', 'a', 'd']) false none true envTty =
      .run ⟨Output.empty, .error (.Message ("Not printing binary data to tty."))⟩ ∧
    dump_main false (some ['h', 'e', 'a', 'd']) false none true envPipe =
      .run ⟨⟨[], [], [1, 2, 3]⟩, .ok ()⟩ :=
  ⟨(tty_guard_and_raw_bytes envTty ['h', 'e', 'a', 'd'] Tag.HEAD).1 rfl rfl false none true,
   (tty_guard_and_raw_bytes envPipe ['h', 'e', 'a', 'd'] Tag.HEAD).2 [] ttfData [1, 2, 3]
     rfl rfl rfl rfl rfl⟩

/-- C10: in the loca-only dump path, a missing head, maxp or loca table
makes dump_loca_table panic with the expect message, and the graceful
error branch of the outcome is not taken for that condition. -/
theorem loca_missing_table_panics (env : FontTablesModel)
    (hnew : env.new_font = .ok ()) :
    (env.get_table Tag.HEAD = none →
      dump_loca_table env = .panicked "no head table" ∧
      ∀ e, dump_loca_table env ≠ .failed e) ∧
    (∀ hd h, env.get_table Tag.HEAD = some hd → env.read_head hd = .ok h →
      env.get_table Tag.MAXP = none →
      dump_loca_table env = .panicked "no maxp table" ∧
      ∀ e, dump_loca_table env ≠ .failed e) ∧
    (∀ hd h md m, env.get_table Tag.HEAD = some hd → env.read_head hd = .ok h →
      env.get_table Tag.MAXP = some md → env.read_maxp md = .ok m →
      env.get_table Tag.LOCA = none →
      dump_loca_table env = .panicked "no loca table" ∧
      ∀ e, dump_loca_table env ≠ .failed e) := by
  refine ⟨fun h1 => ?_, fun hd h h1 h2 h3 => ?_, fun hd h md m h1 h2 h3 h4 h5 => ?_⟩
  · have : dump_loca_table env = .panicked "no head table" := by
      rw [dump_loca_table, hnew]; simp only []; rw [h1]
    exact ⟨this, fun e => by rw [this]; simp⟩
  · have : dump_loca_table env = .panicked "no maxp table" := by
      rw [dump_loca_table, hnew]; simp only []; rw [h1]; simp only []
      rw [h2]; simp only []; rw [h3]
    exact ⟨this, fun e => by rw [this]; simp⟩
  · have : dump_loca_table env = .panicked "no loca table" := by
      rw [dump_loca_table, hnew]; simp only []; rw [h1]; simp only []
      rw [h2]; simp only []; rw [h3]; simp only []; rw [h4]; simp only []
      rw [h5]
    exact ⟨this, fun e => by rw [this]; simp⟩

/-- Witness for C10 at the concrete provider that holds no tables. -/
theorem loca_missing_table_panics_witness :
    dump_loca_table locaEnvMissingHead = .panicked "no head table" ∧
    dump_loca_table locaEnvMissingHead ≠ .failed ParseError.BadValue :=
  ⟨((loca_missing_table_panics locaEnvMissingHead rfl).1 rfl).1,
   ((loca_missing_table_panics locaEnvMissingHead rfl).1 rfl).2 ParseError.BadValue⟩

end Dump
